import Mathlib

/-
Verification of the qubi_protocol Python library (controller.py, utils.py,
types.py, errors.py) against its natural-language specification.

Modelling conventions:
- Python/JSON values are shallowly embedded as `PyVal`.  Python dicts are
  association lists with distinct keys (Python dict construction merges
  duplicate keys, so every dict reaching the modelled code has distinct
  keys); lookup is first-match.  Floats are not modelled: no modelled code
  path constructs or branches on a float.  `PyVal.nonser` stands for a
  Python object that `json.dumps` rejects with `TypeError` (e.g. a set).
- The JSON text layer is modelled by `dumps` (compact separators `(',',':')`
  and `ensure_ascii` escaping, as `json.dumps` uses in `serialize_message`).
  `json.loads` of a transmitted payload is modelled by handing the parsed
  `PyVal` (or `none` for a `json.JSONDecodeError`) directly to the code
  that consumes it; the exactness of `loads ∘ dumps` on JSON-representable
  values is the standard-library contract assumed by the source.
- Exceptions are modelled with `Except PyErr`; `PyErr` keeps each
  exception's class (and, for the base `QubiError`, its payload and code)
  and elides the human-readable message text.
- Socket effects are modelled by explicit event lists: what `sendto` did,
  and the sequence of datagrams (or socket timeouts) that `recvfrom`
  produced before the deadline expired.  Time is thereby abstracted: the
  end of an event list is the expiry of the corresponding timeout.
- Registered response handlers are modelled as pure observers (errors they
  raise only feed `_call_error_handlers`, which swallows everything); the
  errors routed to `_call_error_handlers` by the wait loop itself are
  tracked explicitly because the spec talks about them.
-/

set_option maxRecDepth 40000

namespace Qubi

/-- Shallow embedding of the Python/JSON values the library manipulates. -/
inductive PyVal where
  | null
  | bool (b : Bool)
  | int (n : Int)
  | str (s : String)
  | list (xs : List PyVal)
  | dict (kvs : List (String × PyVal))
  | nonser (tag : Nat)
deriving Repr

/-- Exception classes of errors.py plus the Python builtins the modelled
code can raise.  `qubiError` is the base `QubiError(message, code)`;
message text of the library's own subclasses is elided, only the class is
kept. -/
inductive PyErr where
  | validationError
  | protocolError
  | timeoutError
  | connectionError
  | qubiError (message : PyVal) (code : Option String)
  | indexError
  | attributeError
  | typeError
deriving Repr

/-- types.py: QUBI_PROTOCOL_VERSION. -/
def QUBI_PROTOCOL_VERSION : String := "1.0"

/-- types.py: QUBI_DEFAULT_PORT. -/
def QUBI_DEFAULT_PORT : Int := 8888

/-- types.py: QUBI_MAX_PACKET_SIZE. -/
def QUBI_MAX_PACKET_SIZE : Nat := 1024

/-- Python dict lookup (`d.get(k)` / `k in d`): first match in the
association list; modelled dicts have distinct keys. -/
def dictGet (kvs : List (String × PyVal)) (k : String) : Option PyVal :=
  match kvs with
  | [] => none
  | (k', v) :: rest => if k' = k then some v else dictGet rest k

/-- Python `==` between values of which at least one side is a scalar
(`None`, `bool`, `int`, `str`) — the only comparisons the modelled code
performs (`message["version"] != "1.0"` and the sequence-correlation
check, whose right side is always an `int`).  `True == 1` holds in Python
(bool is an int); a container never equals a scalar. -/
def pyEqScalar : PyVal → PyVal → Bool
  | .null, .null => true
  | .bool a, .bool b => a == b
  | .bool a, .int n => (if a then (1 : Int) else 0) == n
  | .int n, .bool b => n == (if b then (1 : Int) else 0)
  | .int a, .int b => a == b
  | .str a, .str b => a == b
  | _, _ => false

/-- Python truthiness, as used by `discover`'s
`response.get("data", {}).get("module_type")` condition. -/
def pyTruthy : PyVal → Bool
  | .null => false
  | .bool b => b
  | .int n => n != 0
  | .str s => !(s.isEmpty)
  | .list xs => !xs.isEmpty
  | .dict kvs => !kvs.isEmpty
  | .nonser _ => true

/-- Python `v >= k` for an `int` right operand: defined for `int` and
`bool` left operands (bool is an int), `TypeError` (`none`) otherwise —
as in `response.get("status", 500) >= 400`. -/
def pyGeInt : PyVal → Int → Option Bool
  | .int n, k => some (decide (k ≤ n))
  | .bool b, k => some (decide (k ≤ (if b then (1 : Int) else 0)))
  | _, _ => none

/-- Python `isinstance(v, int)`: true for ints and bools. -/
def pyIsInt : PyVal → Bool
  | .int _ => true
  | .bool _ => true
  | _ => false

def concatAll : List String → String
  | [] => ""
  | s :: rest => s ++ concatAll rest

def joinComma : List String → String
  | [] => ""
  | [s] => s
  | s :: rest => s ++ "," ++ joinComma rest

def joinCommaSpace : List String → String
  | [] => ""
  | [s] => s
  | s :: rest => s ++ ", " ++ joinCommaSpace rest

def hexDigit (n : Nat) : Char :=
  if n < 10 then Char.ofNat (48 + n) else Char.ofNat (87 + n)

def hex4 (n : Nat) : String :=
  String.mk [hexDigit (n / 4096 % 16), hexDigit (n / 256 % 16),
             hexDigit (n / 16 % 16), hexDigit (n % 16)]

/-- One character of `json.dumps`'s default `ensure_ascii` string
escaping: `"` and `\` and the C0 short escapes, `\uXXXX` for other
control characters and all non-ASCII (surrogate pairs above U+FFFF). -/
def escapeChar (c : Char) : String :=
  if c = '"' then "\\\""
  else if c = '\\' then "\\\\"
  else
    let n := c.toNat
    if n = 8 then "\\b"
    else if n = 9 then "\\t"
    else if n = 10 then "\\n"
    else if n = 12 then "\\f"
    else if n = 13 then "\\r"
    else if n < 32 then "\\u" ++ hex4 n
    else if n < 127 then String.singleton c
    else if n < 65536 then "\\u" ++ hex4 n
    else
      let m := n - 65536
      "\\u" ++ hex4 (55296 + m / 1024) ++ "\\u" ++ hex4 (56320 + m % 1024)

/-- `json.dumps` rendering of a string literal. -/
def jsonQuote (s : String) : String :=
  "\"" ++ concatAll (s.data.map escapeChar) ++ "\""

mutual
/-- utils.py line 35, `json.dumps(message, separators=(',', ':'))`:
`none` models the `TypeError`/`ValueError` raised on a non-serializable
value. -/
def dumps : PyVal → Option String
  | .null => some "null"
  | .bool b => some (if b then "true" else "false")
  | .int n => some (toString n)
  | .str s => some (jsonQuote s)
  | .list xs =>
      match dumpsList xs with
      | none => none
      | some parts => some ("[" ++ joinComma parts ++ "]")
  | .dict kvs =>
      match dumpsKVs kvs with
      | none => none
      | some parts => some ("\x7b" ++ joinComma parts ++ "\x7d")
  | .nonser _ => none

def dumpsList : List PyVal → Option (List String)
  | [] => some []
  | x :: xs =>
      match dumps x, dumpsList xs with
      | some s, some rest => some (s :: rest)
      | _, _ => none

def dumpsKVs : List (String × PyVal) → Option (List String)
  | [] => some []
  | (k, v) :: rest =>
      match dumps v, dumpsKVs rest with
      | some s, some r => some ((jsonQuote k ++ ":" ++ s) :: r)
      | _, _ => none
end

mutual
/-- Python `repr`, as far as the modelled code can observe it (string
escaping inside `repr` of a str is elided; the code only ever formats
scalar `module_id`s and `status` values). -/
def pyRepr : PyVal → String
  | .null => "None"
  | .bool b => if b then "True" else "False"
  | .int n => toString n
  | .str s => "'" ++ s ++ "'"
  | .list xs => "[" ++ joinCommaSpace (pyReprList xs) ++ "]"
  | .dict kvs => "\x7b" ++ joinCommaSpace (pyReprKVs kvs) ++ "\x7d"
  | .nonser t => "<unserializable object " ++ toString t ++ ">"

def pyReprList : List PyVal → List String
  | [] => []
  | x :: xs => pyRepr x :: pyReprList xs

def pyReprKVs : List (String × PyVal) → List String
  | [] => []
  | (k, v) :: rest => ("'" ++ k ++ "': " ++ pyRepr v) :: pyReprKVs rest
end

/-- Python `str(v)`, as used in f-strings and `str(response.get("status"))`. -/
def pyStr : PyVal → String
  | .str s => s
  | v => pyRepr v

/-- utils.py `create_message`: version and timestamp and commands, with
`sequence` added only when one is supplied (Python dict insertion order). -/
def create_message (commands : List PyVal) (sequence : Option Int) (ts : Int) : PyVal :=
  match sequence with
  | none => .dict [("version", .str QUBI_PROTOCOL_VERSION), ("timestamp", .int ts),
      ("commands", .list commands)]
  | some s => .dict [("version", .str QUBI_PROTOCOL_VERSION), ("timestamp", .int ts),
      ("commands", .list commands), ("sequence", .int s)]

/-- utils.py `serialize_message`: dumps, then the size check.  The
`QubiValidationError` raised for oversize is not a `TypeError`/`ValueError`
so it escapes the `except` clause unchanged; a dumps failure becomes
`QubiProtocolError`. -/
def serialize_message (message : PyVal) : Except PyErr String :=
  match dumps message with
  | none => .error .protocolError
  | some s => if s.length > QUBI_MAX_PACKET_SIZE then .error .validationError else .ok s

def is_valid_module_type : PyVal → Bool
  | .str t => t = "actuator" || t = "display" || t = "mobile" || t = "sensor" || t = "custom"
  | _ => false

/-- utils.py `validate_command`: required-field presence in source order,
then `module_id` a non-empty str, `module_type` in the known set,
`action` a non-empty str, `params` a dict. -/
def validate_command (command : PyVal) : Except PyErr Unit :=
  match command with
  | .dict kvs =>
      if (dictGet kvs "module_id").isNone then .error .validationError
      else if (dictGet kvs "module_type").isNone then .error .validationError
      else if (dictGet kvs "action").isNone then .error .validationError
      else if (dictGet kvs "params").isNone then .error .validationError
      else
        match (dictGet kvs "module_id").getD .null with
        | .str mid =>
            if mid.isEmpty then .error .validationError
            else if !is_valid_module_type ((dictGet kvs "module_type").getD .null) then
              .error .validationError
            else
              match (dictGet kvs "action").getD .null with
              | .str act =>
                  if act.isEmpty then .error .validationError
                  else
                    match (dictGet kvs "params").getD .null with
                    | .dict _ => .ok ()
                    | _ => .error .validationError
              | _ => .error .validationError
        | _ => .error .validationError
  | _ => .error .validationError

def validate_commands : List PyVal → Except PyErr Unit
  | [] => .ok ()
  | c :: rest =>
      match validate_command c with
      | .error e => .error e
      | .ok _ => validate_commands rest

/-- utils.py `validate_message`: dict shape, `version` present and equal
to `QUBI_PROTOCOL_VERSION` (a mismatch raises `QubiValidationError`),
`timestamp` present and an int (Python `isinstance`, so bools pass),
`commands` present and a list, then every command validated in order. -/
def validate_message (message : PyVal) : Except PyErr Unit :=
  match message with
  | .dict kvs =>
      if (dictGet kvs "version").isNone then .error .validationError
      else if !pyEqScalar ((dictGet kvs "version").getD .null) (.str QUBI_PROTOCOL_VERSION) then
        .error .validationError
      else if (dictGet kvs "timestamp").isNone then .error .validationError
      else if !pyIsInt ((dictGet kvs "timestamp").getD .null) then .error .validationError
      else if (dictGet kvs "commands").isNone then .error .validationError
      else
        match (dictGet kvs "commands").getD .null with
        | .list cmds => validate_commands cmds
        | _ => .error .validationError
  | _ => .error .validationError

/-- utils.py `deserialize_message`.  The input is the result of
`json.loads` on the payload: `none` for a `json.JSONDecodeError`
(wrapped as `QubiProtocolError`), otherwise the parsed value, which is
validated; a `QubiValidationError` from validation is re-raised
unchanged, any other exception would be wrapped as `QubiProtocolError`. -/
def deserialize_message (parsed : Option PyVal) : Except PyErr PyVal :=
  match parsed with
  | none => .error .protocolError
  | some m =>
      match validate_message m with
      | .error .validationError => .error .validationError
      | .error _ => .error .protocolError
      | .ok _ => .ok m

/-- utils.py `generate_sequence_number`: `random.randint(1, 2147483647)`;
`draw` is the RNG draw, mapped onto the inclusive range [1, 2^31-1]. -/
def generate_sequence_number (draw : Nat) : Nat :=
  1 + draw % 2147483647

/-- controller.py `_get_next_sequence`: under tracking, increment the
shared counter modulo 2147483647 and return it; otherwise a random
number.  Returns (new counter state, value returned). -/
def get_next_sequence (sequence_tracking : Bool) (counter draw : Nat) : Nat × Nat :=
  if sequence_tracking then
    let c := (counter + 1) % 2147483647
    (c, c)
  else (counter, generate_sequence_number draw)

/-- Outcome of one `socket.sendto` call. -/
inductive SendRes where
  | ok
  | sockTimeout
  | osError
deriving Repr, DecidableEq

/-- One `recvfrom` outcome inside `_wait_for_response`: a socket timeout,
or a datagram whose `json.loads` result is `parsed` (`none` = the payload
raised `json.JSONDecodeError`). -/
inductive RecvEvent where
  | sockTimeout
  | packet (parsed : Option PyVal)
deriving Repr

/-- The environment one delivery attempt runs against. -/
structure AttemptEnv where
  send : SendRes
  recv : List RecvEvent

/-- What handling one decoded datagram in `_wait_for_response`'s loop
does: return it, ignore it, or catch an in-loop exception and route it to
the error handlers (the `except Exception` arm at controller.py:203). -/
inductive StepRes where
  | success (r : PyVal)
  | noMatch
  | errCaught (e : PyErr)

/-- controller.py lines 190-197 under the surrounding `try`: the
correlation check `response.get("data", {}).get("sequence") == sequence
or not self.sequence_tracking`, then the status check
`response.get("status", 500) >= 400`, which raises
`QubiError(response.get("message", "Unknown error"), str(response.get("status")))`
— an exception that, like any `AttributeError`/`TypeError` arising here,
is caught by the loop's own `except Exception` and routed to the error
handlers. -/
def match_and_check (sequence_tracking : Bool) (sequence : PyVal) (r : PyVal) : StepRes :=
  match r with
  | .dict kvs =>
      match (dictGet kvs "data").getD (.dict []) with
      | .dict dkvs =>
          if pyEqScalar ((dictGet dkvs "sequence").getD .null) sequence || !sequence_tracking then
            match pyGeInt ((dictGet kvs "status").getD (.int 500)) 400 with
            | none => .errCaught .typeError
            | some true =>
                .errCaught (.qubiError ((dictGet kvs "message").getD (.str "Unknown error"))
                  (some (pyStr ((dictGet kvs "status").getD .null))))
            | some false => .success r
          else .noMatch
      | _ => .errCaught .attributeError
  | _ => .errCaught .attributeError

structure WaitOut where
  result : Except PyErr (List PyVal)
  handlerErrors : List PyErr

/-- controller.py `_wait_for_response`: read until the deadline (end of
the event list); socket timeouts and undecodable datagrams are skipped;
every decoded datagram is dispatched to the response handlers and then
matched; in-loop exceptions (including the status>=400 `QubiError`) go to
the error handlers and the wait continues; expiry raises
`QubiTimeoutError`. -/
def wait_for_response (sequence_tracking : Bool) (sequence : PyVal) :
    List RecvEvent → List PyErr → WaitOut
  | [], herrs => ⟨.error .timeoutError, herrs⟩
  | .sockTimeout :: rest, herrs => wait_for_response sequence_tracking sequence rest herrs
  | .packet none :: rest, herrs => wait_for_response sequence_tracking sequence rest herrs
  | .packet (some r) :: rest, herrs =>
      match match_and_check sequence_tracking sequence r with
      | .success resp => ⟨.ok [resp], herrs⟩
      | .noMatch => wait_for_response sequence_tracking sequence rest herrs
      | .errCaught e => wait_for_response sequence_tracking sequence rest (herrs ++ [e])

structure MsgOut where
  result : Except PyErr (List PyVal)
  sent : List String
  handlerErrors : List PyErr
  waited : Bool

/-- controller.py `_send_message`: serialize (its errors propagate before
any socket use), send (socket.timeout → `QubiTimeoutError`, OSError →
`QubiConnectionError`), then wait for the reply only when tracking is on
and the message carries a sequence, else return `[]`.  `sent` records
the payloads actually written to the socket. -/
def send_message (sequence_tracking : Bool) (message : PyVal) (env : AttemptEnv) : MsgOut :=
  match serialize_message message with
  | .error e => ⟨.error e, [], [], false⟩
  | .ok data =>
      match env.send with
      | .sockTimeout => ⟨.error .timeoutError, [], [], false⟩
      | .osError => ⟨.error .connectionError, [], [], false⟩
      | .ok =>
          if sequence_tracking then
            match message with
            | .dict kvs =>
                match dictGet kvs "sequence" with
                | some PyVal.null => ⟨.ok [], [data], [], false⟩
                | some sv =>
                    let w := wait_for_response sequence_tracking sv env.recv []
                    ⟨w.result, [data], w.handlerErrors, true⟩
                | none => ⟨.ok [], [data], [], false⟩
            | _ => ⟨.error .attributeError, [data], [], false⟩
          else ⟨.ok [], [data], [], false⟩

structure RetryOut where
  result : Except PyErr (List PyVal)
  attempts : Nat
  sleeps : List Nat
  sent : List String
  handlerErrors : List PyErr
  waited : Bool

/-- controller.py `_send_with_retry`'s loop, one recursive step per
iteration of `for attempt in range(retries + 1)`: every exception from an
attempt is caught, remembered as `last_error`, and — when further
attempts remain — followed by an exponential-backoff sleep of
`2 ** attempt * 0.1` seconds (recorded in tenths as `2 ^ attempt`); when
the range is exhausted the last error is re-raised. -/
def retry_loop (sequence_tracking : Bool) (message : PyVal) (env : Nat → AttemptEnv)
    (retries : Nat) :
    Nat → Nat → Option PyErr → List Nat → List String → List PyErr → Bool → RetryOut
  | attempt, 0, lastErr, sleeps, sent, herrs, w =>
      ⟨.error (match lastErr with
        | some e => e
        | none => .qubiError (.str "All retry attempts failed") none),
        attempt, sleeps, sent, herrs, w⟩
  | attempt, remaining + 1, _lastErr, sleeps, sent, herrs, w =>
      let out := send_message sequence_tracking message (env attempt)
      match out.result with
      | .ok rs => ⟨.ok rs, attempt + 1, sleeps, sent ++ out.sent, herrs ++ out.handlerErrors,
          w || out.waited⟩
      | .error e =>
          if attempt < retries then
            retry_loop sequence_tracking message env retries (attempt + 1) remaining (some e)
              (sleeps ++ [2 ^ attempt]) (sent ++ out.sent) (herrs ++ out.handlerErrors)
              (w || out.waited)
          else
            retry_loop sequence_tracking message env retries (attempt + 1) remaining (some e)
              sleeps (sent ++ out.sent) (herrs ++ out.handlerErrors) (w || out.waited)

/-- controller.py `_send_with_retry`. -/
def send_with_retry (sequence_tracking : Bool) (retries : Nat) (message : PyVal)
    (env : Nat → AttemptEnv) : RetryOut :=
  retry_loop sequence_tracking message env retries 0 (retries + 1) none [] [] [] false

structure BatchOut where
  result : Except PyErr (List PyVal)
  attempts : Nat
  sleeps : List Nat
  sent : List String
  handlerErrors : List PyErr
  waited : Bool
  message : PyVal
  counterAfter : Nat

/-- controller.py `send_batch`: allocate a sequence only when tracking is
enabled (`self._get_next_sequence() if self.sequence_tracking else None`),
build the message, and deliver it with retries.  `counter`/`draw` are the
allocator's shared counter state and the RNG draw; `ts` the clock value
`get_current_timestamp` returns. -/
def send_batch (sequence_tracking : Bool) (retries : Nat) (counter draw : Nat)
    (commands : List PyVal) (ts : Int) (env : Nat → AttemptEnv) : BatchOut :=
  let cs : Nat × Option Int :=
    if sequence_tracking then
      let p := get_next_sequence sequence_tracking counter draw
      (p.1, some (Int.ofNat p.2))
    else (counter, none)
  let message := create_message commands cs.2 ts
  let r := send_with_retry sequence_tracking retries message env
  ⟨r.result, r.attempts, r.sleeps, r.sent, r.handlerErrors, r.waited, message, cs.1⟩

/-- controller.py `send_command`: `self.send_batch([command])[0]` — the
indexing raises `IndexError` when the batch call returns an empty list. -/
def send_command (sequence_tracking : Bool) (retries : Nat) (counter draw : Nat)
    (command : PyVal) (ts : Int) (env : Nat → AttemptEnv) : Except PyErr PyVal :=
  match (send_batch sequence_tracking retries counter draw [command] ts env).result with
  | .error e => .error e
  | .ok [] => .error .indexError
  | .ok (r :: _) => .ok r

/-- `message.get("sequence")` on a built message (observation helper for
the theorems; mirrors the guard in `_send_message`). -/
def msg_sequence (m : PyVal) : Option PyVal :=
  match m with
  | .dict kvs => dictGet kvs "sequence"
  | _ => none

/-- A discovered module as `discover` accumulates it (the `last_seen`
field holds the `time.time()` reading at receipt). -/
structure QubiModule where
  id : PyVal
  type : PyVal
  ip : String
  port : Int
  last_seen : Nat
deriving Repr

/-- One `recvfrom` outcome inside a discovery round: a socket timeout
(which ends the round), or a datagram from `(ip, port)` whose
`json.loads` result is `parsed` (`none` = `json.JSONDecodeError`),
received at clock value `time`. -/
inductive DiscEvent where
  | sockTimeout
  | packet (parsed : Option PyVal) (ip : String) (port : Int) (time : Nat)

/-- controller.py line 256: `f"{response.get('module_id')}:{addr[0]}:{addr[1]}"`. -/
def module_key (kvs : List (String × PyVal)) (ip : String) (port : Int) : String :=
  pyStr ((dictGet kvs "module_id").getD .null) ++ ":" ++ ip ++ ":" ++ toString port

/-- controller.py lines 254-268, handling one decoded discovery reply:
compute the dedup key; short-circuit when already seen; otherwise inspect
`response.get("data", {}).get("module_type")` (an `AttributeError` here —
the reply or its `data` not being a dict — is uncaught, since the loop
only catches `json.JSONDecodeError` and `KeyError`); when new and truthy,
the key is added to the seen-set and the module appended (a `KeyError`
from `response["module_id"]` is caught by the loop and skips only the
append, the key having already been recorded). -/
def handle_reply (r : PyVal) (ip : String) (port : Int) (t : Nat)
    (seen : List String) (acc : List QubiModule) :
    Except PyErr (List String × List QubiModule) :=
  match r with
  | .dict kvs =>
      let key := module_key kvs ip port
      if key ∈ seen then .ok (seen, acc)
      else
        match (dictGet kvs "data").getD (.dict []) with
        | .dict dkvs =>
            if pyTruthy ((dictGet dkvs "module_type").getD .null) then
              match dictGet kvs "module_id", dictGet dkvs "module_type" with
              | some mid, some mt => .ok (key :: seen, acc ++ [⟨mid, mt, ip, port, t⟩])
              | _, _ => .ok (key :: seen, acc)
            else .ok (seen, acc)
        | _ => .error .attributeError
  | _ => .error .attributeError

/-- One discovery round's receive loop (controller.py lines 251-273):
stop at the per-round deadline or on a socket timeout, skip undecodable
datagrams, handle the rest. -/
def run_round : List DiscEvent → List String → List QubiModule →
    Except PyErr (List String × List QubiModule)
  | [], seen, acc => .ok (seen, acc)
  | .sockTimeout :: _, seen, acc => .ok (seen, acc)
  | .packet none _ _ _ :: rest, seen, acc => run_round rest seen acc
  | .packet (some r) ip port t :: rest, seen, acc =>
      match handle_reply r ip port t seen acc with
      | .error e => .error e
      | .ok (seen', acc') => run_round rest seen' acc'

def run_rounds : List (List DiscEvent) → List String → List QubiModule →
    Except PyErr (List String × List QubiModule)
  | [], seen, acc => .ok (seen, acc)
  | round :: rest, seen, acc =>
      match run_round round seen acc with
      | .error e => .error e
      | .ok (seen', acc') => run_rounds rest seen' acc'

/-- controller.py `discover`: `retries` rounds of broadcast-then-collect
over one shared seen-set and accumulator (each inner list is one round's
receive events; the broadcast sends themselves are taken to succeed —
their failure would be an endpoint-level error).  An error aborts the
whole call (the socket is closed by the `finally`). -/
def discover (rounds : List (List DiscEvent)) : Except PyErr (List QubiModule) :=
  match run_rounds rounds [] [] with
  | .error e => .error e
  | .ok (_, acc) => .ok acc

/-- The sleeps `_send_with_retry` performs for attempts `a, a+1, ...`
over `n` failing non-final attempts, in tenths of a second:
`backoff_sleeps 0 retries = [2^0, 2^1, ..., 2^(retries-1)]`. -/
def backoff_sleeps : Nat → Nat → List Nat
  | _, 0 => []
  | a, n + 1 => 2 ^ a :: backoff_sleeps (a + 1) n

/-- Whether `serialize_message` succeeds on a message (observation
helper for stating hypotheses without naming the produced string). -/
def serializes (m : PyVal) : Bool :=
  match serialize_message m with
  | .ok _ => true
  | .error _ => false

/-- A well-formed example command (spec §8's servo example). -/
def cmd0 : PyVal := .dict [("module_id", .str "servo1"), ("module_type", .str "actuator"),
  ("action", .str "set_servo"), ("params", .dict [("angle", .int 90)])]

/-- A reply datagram matching sequence 1 with status 404. -/
def reply404 : PyVal := .dict [("status", .int 404), ("message", .str "Not Found"),
  ("module_id", .str "m"), ("timestamp", .int 0), ("data", .dict [("sequence", .int 1)])]

/-- Environment in which every attempt's send succeeds and the socket
then delivers exactly the 404 reply before the deadline. -/
def env404 : Nat → AttemptEnv := fun _ => ⟨.ok, [.packet (some reply404)]⟩

/-- A message containing a value `json.dumps` rejects. -/
def msgNS : PyVal := .dict [("x", .nonser 0)]

/-- A message whose compact JSON form is 1601 characters, over the
1024-byte maximum. -/
def bigMsg : PyVal := .list (List.replicate 200 (.int 1000000))

/-- Environment in which every send succeeds and no datagram arrives. -/
def envNone : Nat → AttemptEnv := fun _ => ⟨.ok, []⟩

/-- A discovery reply for module `mid` of type actuator. -/
def drep (mid : String) : PyVal := .dict [("module_id", .str mid), ("status", .int 200),
  ("data", .dict [("module_type", .str "actuator")])]

/-- A message whose version field is "2.0". -/
def v2msg : PyVal := .dict [("version", .str "2.0"), ("timestamp", .int 0),
  ("commands", .list [])]

lemma validate_commands_ok :
    ∀ (cmds : List PyVal), (∀ c ∈ cmds, validate_command c = .ok ()) →
      validate_commands cmds = .ok () := by
  intro cmds h
  induction cmds with
  | nil => rfl
  | cons c rest ih =>
      have hc := h c (List.mem_cons_self _ _)
      simp only [validate_commands, hc]
      exact ih (fun x hx => h x (List.mem_cons_of_mem _ hx))

lemma send_message_serfail (tr : Bool) (m : PyVal) (e : PyErr)
    (hser : serialize_message m = .error e) (env1 : AttemptEnv) :
    send_message tr m env1 = ⟨.error e, [], [], false⟩ := by
  unfold send_message
  rw [hser]

lemma retry_loop_all_fail (tr : Bool) (m : PyVal) (env : Nat → AttemptEnv)
    (retries : Nat) (errF : Nat → PyErr)
    (h : ∀ j, j ≤ retries → (send_message tr m (env j)).result = .error (errF j)) :
    ∀ remaining attempt lastErr sleeps sent herrs w,
      attempt + remaining = retries + 1 → 1 ≤ remaining →
      (retry_loop tr m env retries attempt remaining lastErr sleeps sent herrs w).result
          = .error (errF retries) ∧
      (retry_loop tr m env retries attempt remaining lastErr sleeps sent herrs w).attempts
          = retries + 1 ∧
      (retry_loop tr m env retries attempt remaining lastErr sleeps sent herrs w).sleeps
          = sleeps ++ backoff_sleeps attempt (remaining - 1) := by
  intro remaining
  induction remaining with
  | zero => intro attempt lastErr sleeps sent herrs w _ h2; exact absurd h2 (by omega)
  | succ rem ih =>
      intro attempt lastErr sleeps sent herrs w hsum _
      have hfail := h attempt (by omega)
      rcases Nat.lt_or_ge rem 1 with hr | hr
      · have hrem : rem = 0 := by omega
        subst hrem
        have hatt : attempt = retries := by omega
        subst hatt
        simp [retry_loop, hfail, backoff_sleeps]
      · have hlt : attempt < retries := by omega
        simp only [retry_loop, hfail, if_pos hlt]
        obtain ⟨k, rfl⟩ : ∃ k, rem = k + 1 := ⟨rem - 1, by omega⟩
        have hres := ih (attempt + 1) (some (errF attempt)) (sleeps ++ [2 ^ attempt])
          (sent ++ (send_message tr m (env attempt)).sent)
          (herrs ++ (send_message tr m (env attempt)).handlerErrors)
          (w || (send_message tr m (env attempt)).waited) (by omega) (by omega)
        refine ⟨hres.1, hres.2.1, ?_⟩
        rw [hres.2.2]
        simp [backoff_sleeps, List.append_assoc]

lemma retry_loop_serfail (tr : Bool) (m : PyVal) (env : Nat → AttemptEnv)
    (retries : Nat) (e : PyErr) (hser : serialize_message m = .error e) :
    ∀ remaining attempt lastErr sleeps sent herrs w, 1 ≤ remaining →
      (retry_loop tr m env retries attempt remaining lastErr sleeps sent herrs w).result
          = .error e ∧
      (retry_loop tr m env retries attempt remaining lastErr sleeps sent herrs w).sent
          = sent := by
  intro remaining
  induction remaining with
  | zero => intro attempt lastErr sleeps sent herrs w h2; exact absurd h2 (by omega)
  | succ rem ih =>
      intro attempt lastErr sleeps sent herrs w _
      have hmsg := send_message_serfail tr m e hser (env attempt)
      simp only [retry_loop, hmsg, List.append_nil, Bool.or_false]
      rcases Nat.eq_zero_or_pos rem with hrem | hrem
      · subst hrem
        split
        · simp [retry_loop]
        · simp [retry_loop]
      · split
        · exact ih (attempt + 1) (some e) (sleeps ++ [2 ^ attempt]) sent herrs w (by omega)
        · exact ih (attempt + 1) (some e) sleeps sent herrs w (by omega)

lemma retry_loop_waited (tr : Bool) (m : PyVal) (env : Nat → AttemptEnv) (retries : Nat)
    (hw : ∀ j, (send_message tr m (env j)).waited = false) :
    ∀ remaining attempt lastErr sleeps sent herrs w,
      (retry_loop tr m env retries attempt remaining lastErr sleeps sent herrs w).waited
        = w := by
  intro remaining
  induction remaining with
  | zero => intro attempt lastErr sleeps sent herrs w; rfl
  | succ rem ih =>
      intro attempt lastErr sleeps sent herrs w
      simp only [retry_loop]
      rcases hres : (send_message tr m (env attempt)).result with e | rs
      · simp only [hres]
        split
        · simp only [hw attempt, Bool.or_false]
          exact ih _ _ _ _ _ _
        · simp only [hw attempt, Bool.or_false]
          exact ih _ _ _ _ _ _
      · simp [hres, hw attempt]

lemma retry_loop_ok_shape (tr : Bool) (m : PyVal) (env : Nat → AttemptEnv) (retries : Nat)
    (hsh : ∀ j, (send_message tr m (env j)).result = .ok [] ∨
      ∃ e, (send_message tr m (env j)).result = .error e) :
    ∀ remaining attempt lastErr sleeps sent herrs w,
      (retry_loop tr m env retries attempt remaining lastErr sleeps sent herrs w).result
          = .ok [] ∨
      ∃ e, (retry_loop tr m env retries attempt remaining lastErr sleeps sent herrs w).result
          = .error e := by
  intro remaining
  induction remaining with
  | zero =>
      intro attempt lastErr sleeps sent herrs w
      right
      exact ⟨_, rfl⟩
  | succ rem ih =>
      intro attempt lastErr sleeps sent herrs w
      rcases hsh attempt with hok | ⟨e, herr⟩
      · left
        simp only [retry_loop, hok]
      · simp only [retry_loop, herr]
        split
        · exact ih _ _ _ _ _ _
        · exact ih _ _ _ _ _ _

lemma send_message_untracked (m : PyVal) (env1 : AttemptEnv) :
    (send_message false m env1).waited = false ∧
      ((send_message false m env1).result = .ok [] ∨
        ∃ e, (send_message false m env1).result = .error e) := by
  unfold send_message
  rcases hs : serialize_message m with e | s
  · simp
  · cases hsend : env1.send <;> simp [hsend]

/-- Claim C1, evaluated on the code: a tracked send (retries = 1) whose
socket delivers, on every attempt, exactly one reply matching the
outstanding sequence with status 404 does NOT resolve to a remote error
on the first attempt.  The `QubiError` raised at controller.py:194 is
caught by the loop's own `except Exception` (controller.py:203) and
routed to the error handlers (once per attempt), the wait then times
out, the retry loop retries (attempts = 2, with a backoff sleep), and
the caller finally sees `QubiTimeoutError` — never the 404 error. -/
theorem c1_code_evaluation :
    (send_batch true 1 0 0 [cmd0] 5 env404).result = .error .timeoutError ∧
    (send_batch true 1 0 0 [cmd0] 5 env404).attempts = 2 ∧
    (send_batch true 1 0 0 [cmd0] 5 env404).sleeps = [1] ∧
    (send_batch true 1 0 0 [cmd0] 5 env404).handlerErrors =
      [.qubiError (.str "Not Found") (some "404"),
       .qubiError (.str "Not Found") (some "404")] :=
  ⟨rfl, rfl, rfl, rfl⟩

/-- Claim C2, counterexample: an attempt failing with `ProtocolError`
(a message `json.dumps` rejects) is NOT surfaced immediately: with
retries = 2 the loop performs 3 attempts and sleeps twice (0.1 s, 0.2 s)
before re-raising the `ProtocolError` as the last error — `except
Exception` in `_send_with_retry` retries every failure class. -/
theorem c2_counterexample :
    serialize_message msgNS = .error .protocolError ∧
    (send_with_retry true 2 msgNS envNone).attempts = 3 ∧
    (send_with_retry true 2 msgNS envNone).sleeps = [1, 2] ∧
    (send_with_retry true 2 msgNS envNone).result = .error .protocolError :=
  ⟨rfl, rfl, rfl, rfl⟩

/-- Claim C2, amended: `_send_with_retry` catches every exception class
alike.  If every attempt `j` fails (with error `errF j`, of whatever
class — ValidationError and ProtocolError included), the loop performs
exactly `retries + 1` attempts, sleeping `2^attempt` tenths of a second
after each non-final one, and re-raises the last attempt's error; so
ConnectionError and TimeoutError are retried up to the budget and the
last error is surfaced, while ValidationError and ProtocolError are
retried identically rather than surfaced immediately. -/
theorem c2_amended_thm (tr : Bool) (retries : Nat) (message : PyVal)
    (env : Nat → AttemptEnv) (errF : Nat → PyErr)
    (h : ∀ j, j ≤ retries → (send_message tr message (env j)).result = .error (errF j)) :
    (send_with_retry tr retries message env).result = .error (errF retries) ∧
    (send_with_retry tr retries message env).attempts = retries + 1 ∧
    (send_with_retry tr retries message env).sleeps = backoff_sleeps 0 retries := by
  have := retry_loop_all_fail tr message env retries errF h (retries + 1) 0 none [] [] [] false
    (by omega) (by omega)
  simpa [send_with_retry] using this

/-- Claim C2, witness: the amended theorem applied to the undumpable
message with retries = 2: every attempt fails with `ProtocolError` and
the loop runs all 3 attempts. -/
theorem c2_amended_witness :
    (send_with_retry true 2 msgNS envNone).result = .error .protocolError ∧
    (send_with_retry true 2 msgNS envNone).attempts = 3 ∧
    (send_with_retry true 2 msgNS envNone).sleeps = [1, 2] := by
  have := c2_amended_thm true 2 msgNS envNone (fun _ => .protocolError)
    (fun j _ => rfl)
  simpa [backoff_sleeps] using this

/-- Claim C3, counterexample: with the counter at 2147483646 (the
largest value the allocator ever returns), the next tracked call
executes `(2147483646 + 1) % 2147483647` and returns 0 — the allocator
does emit 0, and the wrap goes to 0, not to 1. -/
theorem c3_counterexample :
    get_next_sequence true 2147483646 0 = (0, 0) := by decide

/-- Claim C3, amended: in tracking mode each call stores and returns
`(counter + 1) % 2147483647`: the returned value always stays below
2^31 - 1 (so the 32-bit signed maximum itself is never emitted, and the
counter advances by exactly 1 until it reaches 2147483646, after which
it wraps to 0 — emitting 0 once per cycle — and only then to 1). -/
theorem c3_amended_thm (counter draw : Nat) :
    get_next_sequence true counter draw
        = ((counter + 1) % 2147483647, (counter + 1) % 2147483647) ∧
    (get_next_sequence true counter draw).2 < 2147483647 := by
  constructor
  · rfl
  · exact Nat.mod_lt _ (by omega)

/-- Claim C4, counterexample: with sequence tracking disabled,
`send_batch` passes `sequence=None` to `create_message`, so the sent
message carries NO sequence field at all (rather than a random one in
[1, 2^31-1]); the call returns an empty response list. -/
theorem c4_counterexample :
    msg_sequence (send_batch false 3 0 0 [cmd0] 5 envNone).message = none ∧
    (send_batch false 3 0 0 [cmd0] 5 envNone).result = .ok [] :=
  ⟨rfl, rfl⟩

/-- Claim C4, amended: when sequence tracking is disabled, every message
`send_batch` sends carries no sequence field (the random generator is
never consulted: `send_batch` only calls the allocator when tracking is
enabled, and the shared counter is left untouched), and no wait-for-reply
step occurs for that message. -/
theorem c4_amended_thm (retries counter draw : Nat) (commands : List PyVal)
    (ts : Int) (env : Nat → AttemptEnv) :
    msg_sequence (send_batch false retries counter draw commands ts env).message = none ∧
    (send_batch false retries counter draw commands ts env).counterAfter = counter ∧
    (send_batch false retries counter draw commands ts env).waited = false := by
  refine ⟨rfl, rfl, ?_⟩
  have hw : ∀ j, (send_message false (create_message commands none ts) (env j)).waited
      = false := fun j => (send_message_untracked _ (env j)).1
  have := retry_loop_waited false (create_message commands none ts) env retries hw
    (retries + 1) 0 none [] [] [] false
  simpa [send_batch, send_with_retry] using this

/-- Claim C5, counterexample: decoding a message whose version is "2.0"
fails, but with `QubiValidationError` (raised by `validate_message` and
re-raised unchanged by `deserialize_message`), not with the
`QubiProtocolError` the claim requires. -/
theorem c5_counterexample :
    deserialize_message (some v2msg) = .error .validationError ∧
    PyErr.validationError ≠ PyErr.protocolError :=
  ⟨rfl, fun h => PyErr.noConfusion h⟩

/-- Claim C5, amended: for every decoded message whose version field
differs from the supported protocol version "1.0", decoding fails — but
the error raised is a `ValidationError` (`validate_message` raises
`QubiValidationError` for the mismatch and `deserialize_message`
re-raises it unchanged), not a `ProtocolError`. -/
theorem c5_amended_thm (kvs : List (String × PyVal)) (v : PyVal)
    (hv : dictGet kvs "version" = some v)
    (hne : pyEqScalar v (.str QUBI_PROTOCOL_VERSION) = false) :
    deserialize_message (some (.dict kvs)) = .error .validationError := by
  have hval : validate_message (.dict kvs) = .error .validationError := by
    simp [validate_message, hv, hne]
  simp [deserialize_message, hval]

/-- Claim C5, witness: the amended theorem at the version-"2.0" message. -/
theorem c5_amended_witness :
    deserialize_message (some v2msg) = .error .validationError :=
  c5_amended_thm [("version", .str "2.0"), ("timestamp", .int 0), ("commands", .list [])]
    (.str "2.0") rfl rfl

/-- Claim C6, evaluated on the code: a discovery reply whose payload is
valid JSON but not a JSON object (here the payload `42`) makes
`discover` raise an uncaught `AttributeError` (`response.get` on an
int): the round's `except` clause only catches `json.JSONDecodeError`
and `KeyError`.  An undecodable payload, by contrast, is silently
skipped as the claim says. -/
theorem c6_code_evaluation :
    discover [[.packet (some (.int 42)) "10.0.0.5" 8888 0]] = .error .attributeError ∧
    discover [[.packet none "10.0.0.5" 8888 0]] = .ok [] :=
  ⟨rfl, rfl⟩

/-- Claim C7: serialization errors abort an attempt — and the whole
retry loop — before any socket write: a message `json.dumps` rejects
yields `ProtocolError`, an encoded form longer than
QUBI_MAX_PACKET_SIZE (1024) yields `ValidationError`, and in either
case `_send_message` (and `_send_with_retry` around it) reports that
error with nothing ever written to the socket. -/
theorem c7_thm (tr : Bool) (m : PyVal) (env1 : AttemptEnv) (retries : Nat)
    (env : Nat → AttemptEnv) :
    (∀ e, serialize_message m = .error e →
      (send_message tr m env1).result = .error e ∧ (send_message tr m env1).sent = []) ∧
    (dumps m = none → serialize_message m = .error .protocolError) ∧
    (∀ s, dumps m = some s → QUBI_MAX_PACKET_SIZE < s.length →
      serialize_message m = .error .validationError) ∧
    (∀ e, serialize_message m = .error e →
      (send_with_retry tr retries m env).result = .error e ∧
      (send_with_retry tr retries m env).sent = []) := by
  refine ⟨?_, ?_, ?_, ?_⟩
  · intro e hser
    rw [send_message_serfail tr m e hser env1]
    exact ⟨rfl, rfl⟩
  · intro hd
    simp [serialize_message, hd]
  · intro s hd hlen
    simp [serialize_message, hd, hlen]
  · intro e hser
    have := retry_loop_serfail tr m env retries e hser (retries + 1) 0 none [] [] [] false
      (by omega)
    simpa [send_with_retry] using this

/-- Claim C7, witness: the undumpable message `msgNS` and the 1601-byte
message `bigMsg`, both with concrete environments. -/
theorem c7_witness :
    ((send_message true msgNS (envNone 0)).result = .error .protocolError ∧
      (send_message true msgNS (envNone 0)).sent = []) ∧
    serialize_message msgNS = .error .protocolError ∧
    serialize_message bigMsg = .error .validationError ∧
    ((send_with_retry true 2 bigMsg envNone).result = .error .validationError ∧
      (send_with_retry true 2 bigMsg envNone).sent = []) := by
  refine ⟨?_, ?_, ?_, ?_⟩
  · exact (c7_thm true msgNS (envNone 0) 2 envNone).1 .protocolError rfl
  · exact (c7_thm true msgNS (envNone 0) 2 envNone).2.1 rfl
  · exact (c7_thm true bigMsg (envNone 0) 2 envNone).2.2.1 ((dumps bigMsg).getD "") rfl
      (by decide)
  · exact (c7_thm true bigMsg (envNone 0) 2 envNone).2.2.2 .validationError rfl

/-- Claim C8: discovery deduplicates by (module_id, source ip, source
port): two distinct modules each replying once per round over two rounds
yield exactly two Module entries, one per key, in first-seen order with
first-seen `last_seen`; and a reply whose data lacks a `module_type` is
never added (its handling leaves the seen-set and the result untouched). -/
theorem c8_thm (kvs1 kvs2 d1 d2 : List (String × PyVal)) (mid1 mid2 mt1 mt2 : PyVal)
    (ip1 ip2 : String) (port1 port2 : Int) (t1 t2 t3 t4 : Nat)
    (h1id : dictGet kvs1 "module_id" = some mid1)
    (h1d : dictGet kvs1 "data" = some (.dict d1))
    (h1mt : dictGet d1 "module_type" = some mt1)
    (h1tr : pyTruthy mt1 = true)
    (h2id : dictGet kvs2 "module_id" = some mid2)
    (h2d : dictGet kvs2 "data" = some (.dict d2))
    (h2mt : dictGet d2 "module_type" = some mt2)
    (h2tr : pyTruthy mt2 = true)
    (hk : module_key kvs1 ip1 port1 ≠ module_key kvs2 ip2 port2) :
    discover [[.packet (some (.dict kvs1)) ip1 port1 t1,
               .packet (some (.dict kvs2)) ip2 port2 t2],
              [.packet (some (.dict kvs1)) ip1 port1 t3,
               .packet (some (.dict kvs2)) ip2 port2 t4]]
        = .ok [⟨mid1, mt1, ip1, port1, t1⟩, ⟨mid2, mt2, ip2, port2, t2⟩] ∧
    (∀ (kvs d : List (String × PyVal)) (ip : String) (port : Int) (t : Nat)
        (seen : List String) (acc : List QubiModule),
        dictGet kvs "data" = some (.dict d) →
        dictGet d "module_type" = none →
        handle_reply (.dict kvs) ip port t seen acc = .ok (seen, acc)) := by
  constructor
  · have s1 : handle_reply (.dict kvs1) ip1 port1 t1 [] []
        = .ok ([module_key kvs1 ip1 port1], [⟨mid1, mt1, ip1, port1, t1⟩]) := by
      simp [handle_reply, h1d, h1mt, h1tr, h1id]
    have s2 : handle_reply (.dict kvs2) ip2 port2 t2 [module_key kvs1 ip1 port1]
        [⟨mid1, mt1, ip1, port1, t1⟩]
        = .ok ([module_key kvs2 ip2 port2, module_key kvs1 ip1 port1],
            [⟨mid1, mt1, ip1, port1, t1⟩, ⟨mid2, mt2, ip2, port2, t2⟩]) := by
      simp [handle_reply, h2d, h2mt, h2tr, h2id, Ne.symm hk]
    have s3 : handle_reply (.dict kvs1) ip1 port1 t3
        [module_key kvs2 ip2 port2, module_key kvs1 ip1 port1]
        [⟨mid1, mt1, ip1, port1, t1⟩, ⟨mid2, mt2, ip2, port2, t2⟩]
        = .ok ([module_key kvs2 ip2 port2, module_key kvs1 ip1 port1],
            [⟨mid1, mt1, ip1, port1, t1⟩, ⟨mid2, mt2, ip2, port2, t2⟩]) := by
      simp [handle_reply]
    have s4 : handle_reply (.dict kvs2) ip2 port2 t4
        [module_key kvs2 ip2 port2, module_key kvs1 ip1 port1]
        [⟨mid1, mt1, ip1, port1, t1⟩, ⟨mid2, mt2, ip2, port2, t2⟩]
        = .ok ([module_key kvs2 ip2 port2, module_key kvs1 ip1 port1],
            [⟨mid1, mt1, ip1, port1, t1⟩, ⟨mid2, mt2, ip2, port2, t2⟩]) := by
      simp [handle_reply]
    simp [discover, run_rounds, run_round, s1, s2, s3, s4]
  · intro kvs d ip port t seen acc hd hmt
    by_cases hkm : module_key kvs ip port ∈ seen
    · simp [handle_reply, hkm]
    · simp [handle_reply, hkm, hd, hmt, pyTruthy]

/-- Claim C8, witness: two concrete modules m1 and m2 at distinct
addresses, each replying in both rounds. -/
theorem c8_witness :
    discover [[.packet (some (drep "m1")) "10.0.0.1" 8888 0,
               .packet (some (drep "m2")) "10.0.0.2" 8888 1],
              [.packet (some (drep "m1")) "10.0.0.1" 8888 2,
               .packet (some (drep "m2")) "10.0.0.2" 8888 3]]
      = .ok [⟨.str "m1", .str "actuator", "10.0.0.1", 8888, 0⟩,
             ⟨.str "m2", .str "actuator", "10.0.0.2", 8888, 1⟩] :=
  (c8_thm [("module_id", .str "m1"), ("status", .int 200),
      ("data", .dict [("module_type", .str "actuator")])]
    [("module_id", .str "m2"), ("status", .int 200),
      ("data", .dict [("module_type", .str "actuator")])]
    [("module_type", .str "actuator")] [("module_type", .str "actuator")]
    (.str "m1") (.str "m2") (.str "actuator") (.str "actuator")
    "10.0.0.1" "10.0.0.2" 8888 8888 0 1 2 3
    rfl rfl rfl rfl rfl rfl rfl rfl (by decide)).1

/-- Claim C9: for every valid message (version field "1.0", integer
timestamp, commands a list of structurally valid commands) that
serializes, deserializing the serialized form reproduces the same
logical content (the JSON text layer `loads ∘ dumps` being the exact
codec the standard library guarantees on JSON-representable values):
validation accepts the message and `deserialize_message` returns it
unchanged. -/
theorem c9_thm (kvs : List (String × PyVal)) (ts : Int) (cmds : List PyVal)
    (hv : dictGet kvs "version" = some (.str QUBI_PROTOCOL_VERSION))
    (ht : dictGet kvs "timestamp" = some (.int ts))
    (hc : dictGet kvs "commands" = some (.list cmds))
    (hcv : ∀ c ∈ cmds, validate_command c = .ok ())
    (_hs : serializes (.dict kvs) = true) :
    deserialize_message (some (.dict kvs)) = .ok (.dict kvs) := by
  have hcmds := validate_commands_ok cmds hcv
  have hval : validate_message (.dict kvs) = .ok () := by
    simp [validate_message, hv, ht, hc, pyEqScalar, pyIsInt, hcmds]
  simp [deserialize_message, hval]

/-- Claim C9, witness: the round trip on a concrete valid one-command
message. -/
theorem c9_witness :
    validate_command cmd0 = .ok () ∧
    serializes (.dict [("version", .str "1.0"), ("timestamp", .int 5),
      ("commands", .list [cmd0])]) = true ∧
    deserialize_message (some (.dict [("version", .str "1.0"), ("timestamp", .int 5),
      ("commands", .list [cmd0])]))
      = .ok (.dict [("version", .str "1.0"), ("timestamp", .int 5),
          ("commands", .list [cmd0])]) := by
  refine ⟨rfl, rfl, ?_⟩
  exact c9_thm _ 5 [cmd0] rfl rfl rfl
    (by intro c hcm; rw [List.mem_singleton] at hcm; subst hcm; rfl) rfl

/-- Claim C10: with sequence tracking disabled, `send_command` can never
succeed: `send_batch` returns an empty response list in untracked mode
(or raises), and `send_command` unconditionally indexes element 0 of
that list, so whenever the single delivery attempt goes through
(serialization succeeds and the first send does not fail) the call
raises `IndexError`, and in no environment does it return a response. -/
theorem c10_thm (retries counter draw : Nat) (command : PyVal) (ts : Int)
    (env : Nat → AttemptEnv) :
    (∀ r, send_command false retries counter draw command ts env ≠ .ok r) ∧
    (serializes (create_message [command] none ts) = true → (env 0).send = .ok →
      send_command false retries counter draw command ts env = .error .indexError) := by
  have hsh : ∀ j, (send_message false (create_message [command] none ts) (env j)).result
        = .ok [] ∨
      ∃ e, (send_message false (create_message [command] none ts) (env j)).result
        = .error e :=
    fun j => (send_message_untracked _ (env j)).2
  have hshape := retry_loop_ok_shape false (create_message [command] none ts) env retries
    hsh (retries + 1) 0 none [] [] [] false
  have hbatch : (send_batch false retries counter draw [command] ts env).result
      = (retry_loop false (create_message [command] none ts) env retries 0
          (retries + 1) none [] [] [] false).result := rfl
  constructor
  · intro r hok
    unfold send_command at hok
    rcases hshape with hb | ⟨e, hb⟩
    · rw [hbatch, hb] at hok
      simp at hok
    · rw [hbatch, hb] at hok
      simp at hok
  · intro hser hsend
    rcases hs : serialize_message (create_message [command] none ts) with e | s
    · rw [serializes, hs] at hser
      simp at hser
    · have hmsg : send_message false (create_message [command] none ts) (env 0)
          = ⟨.ok [], [s], [], false⟩ := by
        unfold send_message
        rw [hs, hsend]
        rfl
      have hloop : (retry_loop false (create_message [command] none ts) env retries 0
          (retries + 1) none [] [] [] false).result = .ok [] := by
        simp [retry_loop, hmsg]
      unfold send_command
      rw [hbatch, hloop]

/-- Claim C10, witness: a concrete untracked `send_command` whose
serialization and send succeed raises `IndexError`; instantiating the
never-succeeds part at a concrete response value. -/
theorem c10_witness :
    serializes (create_message [cmd0] none 5) = true ∧
    (envNone 0).send = .ok ∧
    send_command false 3 0 0 cmd0 5 envNone = .error .indexError ∧
    send_command false 3 0 0 cmd0 5 envNone ≠ .ok (.dict []) :=
  ⟨rfl, rfl, (c10_thm 3 0 0 cmd0 5 envNone).2 rfl rfl,
    (c10_thm 3 0 0 cmd0 5 envNone).1 (.dict [])⟩

end Qubi
